import Mathlib

/-!
Verification of the servo ReadableStream external-underlying-source bridge.

Shallow embedding of the following source files:
- src/components/script/dom/readablestream.rs
  (ReadableStream, ExternalUnderlyingSource, ExternalUnderlyingSourceController,
   StreamFinalizer)
- src/components/script/dom/teereadrequest.rs (TeeReadRequest)

Bytes are modelled as natural numbers, byte buffers as lists.  Functions that
can panic in the source (assertion failures, Option::expect) return Option,
with none standing for the panic.  Calls into the engine-provided stream
primitive that only emit a signal are traced as output lists; the modelled
state of the engine-side stream object is JSStream.
-/

/-- State of the consumer-visible (engine-provided) stream object. -/
inductive JSStreamState
  | readable
  | closed
  | errored
deriving DecidableEq, Repr

/-- Modelled from the spec: the consumer-visible stream primitive provided by
the JS engine (spec section 6), exposing is_locked, is_disturbed, is_readable
queries and close / error / update_data_available mutations.  Acquiring a
reader locks it; reading from a reader marks it disturbed; the disturbed flag
is never reset. -/
structure JSStream where
  state : JSStreamState
  locked : Bool
  disturbed : Bool
deriving DecidableEq, Repr

/-- Where the bytes originate (enum ExternalUnderlyingSource in the source). -/
inductive ExternalUnderlyingSource
  | Memory (bytes : List Nat)
  | Blob (size : Nat)
  | FetchResponse
  | FetchRequest
deriving DecidableEq, Repr

/-- One-shot finalizer object (struct StreamFinalizer): a trusted reference to
the stream, a task source bound to the owning execution context, and a task
canceller.  All three are modelled as opaque identifiers. -/
structure StreamFinalizer where
  stream : Nat
  task_source : Nat
  canceller : Nat
deriving DecidableEq, Repr

/-- A task queued on an execution-context task queue by
StreamFinalizer.finalize. -/
structure QueuedFinalizeTask where
  task_source : Nat
  stream : Nat
  canceller : Nat
deriving DecidableEq, Repr

/-- StreamFinalizer::finalize: consumes self and queues the teardown task on
the owning context task source, with the stored canceller. -/
def StreamFinalizer.finalize (f : StreamFinalizer) : QueuedFinalizeTask :=
  { task_source := f.task_source, stream := f.stream, canceller := f.canceller }

/-- struct ExternalUnderlyingSourceController: a byte buffer, a closed flag,
and the mutex-guarded one-shot finalizer slot. -/
structure ExternalUnderlyingSourceController where
  buffer : List Nat
  closed : Bool
  finalizer : Option StreamFinalizer
deriving DecidableEq, Repr

/-- ExternalUnderlyingSourceController::new: Blob(size) only reserves
capacity (content empty), Memory(bytes) seeds the buffer with the bytes,
fetch variants start empty; closed is false and no finalizer is armed. -/
def ExternalUnderlyingSourceController.new
    (source : ExternalUnderlyingSource) : ExternalUnderlyingSourceController :=
  let buffer :=
    match source with
    | ExternalUnderlyingSource.Blob _ => []
    | ExternalUnderlyingSource.Memory bytes => bytes
    | ExternalUnderlyingSource.FetchResponse => []
    | ExternalUnderlyingSource.FetchRequest => []
  { buffer := buffer, closed := false, finalizer := none }

/-- ExternalUnderlyingSourceController::set_up_finalize: arms the one-shot
finalizer slot. -/
def ExternalUnderlyingSourceController.set_up_finalize
    (c : ExternalUnderlyingSourceController) (f : StreamFinalizer) :
    ExternalUnderlyingSourceController :=
  { c with finalizer := some f }

/-- ExternalUnderlyingSourceController::finalize: takes the finalizer out of
the slot (leaving none) and runs it, which queues the teardown task; if the
slot is already empty the source panics on expect, modelled as none. -/
def ExternalUnderlyingSourceController.finalize
    (c : ExternalUnderlyingSourceController) :
    Option (ExternalUnderlyingSourceController × QueuedFinalizeTask) :=
  match c.finalizer with
  | none => none
  | some f => some ({ c with finalizer := none }, f.finalize)

/-- ExternalUnderlyingSourceController::signal_available_bytes: one call into
ReadableStreamUpdateDataAvailableFromSource, traced as a singleton signal
list. -/
def ExternalUnderlyingSourceController.signal_available_bytes
    (available : Nat) : List Nat :=
  [available]

/-- ExternalUnderlyingSourceController::maybe_close_js_stream: closes the
consumer-visible stream only if it is currently readable. -/
def ExternalUnderlyingSourceController.maybe_close_js_stream
    (js : JSStream) : JSStream :=
  match js.state with
  | JSStreamState.readable => { js with state := JSStreamState.closed }
  | _ => js

/-- ExternalUnderlyingSourceController::close: sets the closed flag and
attempts to close the consumer-visible stream; emits no availability
signal. -/
def ExternalUnderlyingSourceController.close
    (c : ExternalUnderlyingSourceController) (js : JSStream) :
    ExternalUnderlyingSourceController × JSStream × List Nat :=
  ({ c with closed := true },
   ExternalUnderlyingSourceController.maybe_close_js_stream js, [])

/-- ExternalUnderlyingSourceController::enqueue_chunk: prepends the chunk to
the buffer (the source concatenates [chunk, buffer]) and signals the total
buffered length; the closed flag is never consulted. -/
def ExternalUnderlyingSourceController.enqueue_chunk
    (c : ExternalUnderlyingSourceController) (chunk : List Nat) :
    ExternalUnderlyingSourceController × List Nat :=
  let buffer := chunk ++ c.buffer
  ({ c with buffer := buffer },
   ExternalUnderlyingSourceController.signal_available_bytes buffer.length)

/-- ExternalUnderlyingSourceController::pull: if closed, attempt to close the
consumer-visible stream; otherwise, if the buffer is non-empty, signal
desired_size available bytes; otherwise do nothing. -/
def ExternalUnderlyingSourceController.pull
    (c : ExternalUnderlyingSourceController) (js : JSStream)
    (desired_size : Nat) :
    ExternalUnderlyingSourceController × JSStream × List Nat :=
  if c.closed then
    (c, ExternalUnderlyingSourceController.maybe_close_js_stream js, [])
  else if c.buffer.length > 0 then
    (c, js,
     ExternalUnderlyingSourceController.signal_available_bytes desired_size)
  else
    (c, js, [])

/-- ExternalUnderlyingSourceController::write_into_buffer: asserts that the
buffer holds at least length bytes (none models the assertion failure),
splits off the last length bytes, copies them to the target (returned as the
middle component), sets bytes_written to the copied chunk length, and keeps
the remaining front of the buffer. -/
def ExternalUnderlyingSourceController.write_into_buffer
    (c : ExternalUnderlyingSourceController) (length : Nat) :
    Option (ExternalUnderlyingSourceController × List Nat × Nat) :=
  let buffer_len := c.buffer.length
  if buffer_len ≥ length then
    let rest := c.buffer.take (buffer_len - length)
    let chunk := c.buffer.drop (buffer_len - length)
    some ({ c with buffer := rest }, chunk, chunk.length)
  else
    none

/-- Folds ExternalUnderlyingSourceController::enqueue_chunk over a list of
chunks (producer-side call sequence), keeping the controller state. -/
def enqueueList (c : ExternalUnderlyingSourceController) :
    List (List Nat) → ExternalUnderlyingSourceController
  | [] => c
  | b :: bs =>
    enqueueList (ExternalUnderlyingSourceController.enqueue_chunk c b).1 bs

/-- Applies ExternalUnderlyingSourceController::write_into_buffer once per
requested length (consumer-side call sequence), collecting the chunks the
calls copy out; none if any call hits the assertion. -/
def drainChunks (c : ExternalUnderlyingSourceController) :
    List Nat → Option (ExternalUnderlyingSourceController × List (List Nat))
  | [] => some (c, [])
  | l :: ls =>
    match ExternalUnderlyingSourceController.write_into_buffer c l with
    | none => none
    | some (c₁, out, _) =>
      match drainChunks c₁ ls with
      | none => none
      | some (c₂, outs) => some (c₂, out :: outs)

/-- struct ReadableStream: the native handle over the engine stream object,
with the native reader flag and the optional external underlying source. -/
structure ReadableStream where
  has_reader : Bool
  js_stream : JSStream
  external_underlying_source : Option ExternalUnderlyingSourceController
deriving DecidableEq, Repr

/-- ReadableStream::is_locked: natively locked when a reader was taken,
otherwise asks the engine object. -/
def ReadableStream.is_locked (s : ReadableStream) : Bool :=
  s.has_reader || s.js_stream.locked

/-- ReadableStream::is_disturbed: natively disturbed when a reader was taken,
otherwise asks the engine object. -/
def ReadableStream.is_disturbed (s : ReadableStream) : Bool :=
  s.has_reader || s.js_stream.disturbed

/-- ReadableStream::start_reading: fails if already locked or disturbed;
otherwise acquires a reader on the engine object (locking it) and records the
native reader. -/
def ReadableStream.start_reading (s : ReadableStream) :
    Except Unit ReadableStream :=
  if s.is_locked || s.is_disturbed then
    Except.error ()
  else
    Except.ok
      { s with
        has_reader := true
        js_stream := { s.js_stream with locked := true } }

/-- ReadableStream::read_a_chunk: panics (none) without a native reader;
otherwise issues one read through the reader, which marks the engine object
disturbed. -/
def ReadableStream.read_a_chunk (s : ReadableStream) : Option ReadableStream :=
  if s.has_reader then
    some { s with js_stream := { s.js_stream with disturbed := true } }
  else
    none

/-- ReadableStream::stop_reading: clears the native reader flag and releases
the engine-side reader lock; the disturbed flag is untouched. -/
def ReadableStream.stop_reading (s : ReadableStream) : ReadableStream :=
  { s with
    has_reader := false
    js_stream := { s.js_stream with locked := false } }

/-- ReadableStream::enqueue_native: panics (none) without an external source;
otherwise forwards to the controller enqueue, returning the emitted
signals. -/
def ReadableStream.enqueue_native (s : ReadableStream) (bytes : List Nat) :
    Option (ReadableStream × List Nat) :=
  match s.external_underlying_source with
  | none => none
  | some c =>
    let r := ExternalUnderlyingSourceController.enqueue_chunk c bytes
    some ({ s with external_underlying_source := some r.1 }, r.2)

/-- ReadableStream::close_native: panics (none) without an external source;
otherwise forwards to the controller close, which also updates the engine
object. -/
def ReadableStream.close_native (s : ReadableStream) :
    Option ReadableStream :=
  match s.external_underlying_source with
  | none => none
  | some c =>
    let r := ExternalUnderlyingSourceController.close c s.js_stream
    some { s with
           external_underlying_source := some r.1
           js_stream := r.2.1 }

/-- ReadableStream::error_native: errors the engine stream object (the engine
transition applies while the stream is readable). -/
def ReadableStream.error_native (s : ReadableStream) : ReadableStream :=
  match s.js_stream.state with
  | JSStreamState.readable =>
    { s with js_stream := { s.js_stream with state := JSStreamState.errored } }
  | _ => s

/-- One successfully executed native operation on a stream handle; panicking
calls have no successor, a failed start_reading leaves the state
unchanged. -/
inductive StreamStep : ReadableStream → ReadableStream → Prop
  | start_ok (s s' : ReadableStream) :
      ReadableStream.start_reading s = Except.ok s' → StreamStep s s'
  | start_err (s : ReadableStream) :
      ReadableStream.start_reading s = Except.error () → StreamStep s s
  | read (s s' : ReadableStream) :
      ReadableStream.read_a_chunk s = some s' → StreamStep s s'
  | stop (s : ReadableStream) : StreamStep s (ReadableStream.stop_reading s)
  | enq (s s' : ReadableStream) (bytes sigs : List Nat) :
      ReadableStream.enqueue_native s bytes = some (s', sigs) → StreamStep s s'
  | close_n (s s' : ReadableStream) :
      ReadableStream.close_native s = some s' → StreamStep s s'
  | error_n (s : ReadableStream) : StreamStep s (ReadableStream.error_native s)

/-- State of a tee-branch default controller.  Modelled from the spec: the
ReadableStreamDefaultController of each branch (its source file is not part
of this excerpt); enqueue appends to the queue while active, error moves an
active controller to the errored state with the given reason. -/
inductive DefaultCtrlState
  | active (queue : List Nat)
  | errored (reason : Nat)
deriving DecidableEq, Repr

/-- ReadableStreamDefaultControllerEnqueue on a branch controller, modelled
from the spec: appends while active, otherwise (the source discards the
fallible result) no effect. -/
def DefaultCtrlState.enqueue : DefaultCtrlState → Nat → DefaultCtrlState
  | DefaultCtrlState.active q, chunk => DefaultCtrlState.active (q ++ [chunk])
  | s, _ => s

/-- ReadableStreamDefaultControllerError on a branch controller, modelled
from the spec: an active controller becomes errored with the reason,
otherwise no effect. -/
def DefaultCtrlState.error : DefaultCtrlState → Nat → DefaultCtrlState
  | DefaultCtrlState.active _, e => DefaultCtrlState.errored e
  | s, _ => s

/-- struct TeeReadRequest, with the shared cells inlined, the two branch
default controllers, the shared cancel promise (none while pending, some r
once resolved with r, where none inside means resolved with undefined), the
upstream cancellation record, and a counter of pull_algorithm invocations. -/
structure TeeReadRequest where
  reading : Bool
  read_again : Bool
  canceled_1 : Bool
  canceled_2 : Bool
  clone_for_branch_2 : Bool
  branch_1 : DefaultCtrlState
  branch_2 : DefaultCtrlState
  cancel_promise : Option (Option Nat)
  upstream_canceled : Option Nat
  pulls : Nat
deriving DecidableEq, Repr

/-- TeeReadRequest::branch_1_default_controller_error. -/
def TeeReadRequest.branch_1_default_controller_error
    (t : TeeReadRequest) (e : Nat) : TeeReadRequest :=
  { t with branch_1 := t.branch_1.error e }

/-- TeeReadRequest::branch_2_default_controller_error. -/
def TeeReadRequest.branch_2_default_controller_error
    (t : TeeReadRequest) (e : Nat) : TeeReadRequest :=
  { t with branch_2 := t.branch_2.error e }

/-- TeeReadRequest::branch_1_default_controller_enqueue. -/
def TeeReadRequest.branch_1_default_controller_enqueue
    (t : TeeReadRequest) (chunk : Nat) : TeeReadRequest :=
  { t with branch_1 := t.branch_1.enqueue chunk }

/-- TeeReadRequest::branch_2_default_controller_enqueue. -/
def TeeReadRequest.branch_2_default_controller_enqueue
    (t : TeeReadRequest) (chunk : Nat) : TeeReadRequest :=
  { t with branch_2 := t.branch_2.enqueue chunk }

/-- TeeReadRequest::stream_cancel: cancels the upstream stream with the
reason (modelled from the spec: ReadableStreamCancel, whose result promise
the source drops), without touching the shared cancel promise. -/
def TeeReadRequest.stream_cancel (t : TeeReadRequest) (reason : Nat) :
    TeeReadRequest :=
  { t with upstream_canceled := some reason }

/-- TeeReadRequest::pull_algorithm: forwards to the tee underlying source;
traced as a counter increment. -/
def TeeReadRequest.pull_algorithm (t : TeeReadRequest) : TeeReadRequest :=
  { t with pulls := t.pulls + 1 }

/-- Delivery phase of TeeReadRequest::chunk_steps: enqueue chunk1 to branch 1
unless canceled, chunk2 to branch 2 unless canceled, clear the reading flag,
and re-pull if read_again was set meanwhile. -/
def TeeReadRequest.deliver (t : TeeReadRequest) (chunk1 chunk2 : Nat) :
    TeeReadRequest :=
  let t₁ := if t.canceled_1 then t
            else t.branch_1_default_controller_enqueue chunk1
  let t₂ := if t₁.canceled_2 then t₁
            else t₁.branch_2_default_controller_enqueue chunk2
  let t₃ := { t₂ with reading := false }
  if t₃.read_again then t₃.pull_algorithm else t₃

/-- TeeReadRequest::chunk_steps.  The structured clone of the chunk for
branch 2 is an external engine collaborator, so its outcome is passed as a
parameter: Except.ok v is a successful clone producing v, Except.error e a
failed clone leaving e in the clone_result slot.  On clone failure both
branch controllers are errored with that value, the upstream stream is
canceled, and the step returns; otherwise the chunk (and its clone for
branch 2, if requested) is delivered. -/
def TeeReadRequest.chunk_steps (t : TeeReadRequest) (chunk : Nat)
    (cloneResult : Except Nat Nat) : TeeReadRequest :=
  let t₁ := { t with read_again := false }
  if t₁.canceled_2 = false ∧ t₁.clone_for_branch_2 = true then
    match cloneResult with
    | Except.error e =>
      let t₂ := t₁.branch_1_default_controller_error e
      let t₃ := t₂.branch_2_default_controller_error e
      t₃.stream_cancel e
    | Except.ok v => t₁.deliver chunk v
  else
    t₁.deliver chunk chunk

/-- TeeReadRequest::close_steps: clear reading, close both non-canceled
branches, and resolve the shared cancel promise with undefined if at least
one branch is not canceled.  Branch close is modelled as leaving the
controller state (the default-controller close transition is not needed by
the claims); included for context. -/
def TeeReadRequest.close_steps (t : TeeReadRequest) : TeeReadRequest :=
  let t₁ := { t with reading := false }
  if !t₁.canceled_1 || !t₁.canceled_2 then
    { t₁ with cancel_promise := some none }
  else
    t₁

/-! Shared helper lemmas: buffer shape after a sequence of enqueues, and the
chunk-aligned drain of such a buffer. -/

/-- After folding enqueue_chunk over a chunk sequence, the buffer holds the
chunks in reverse order (each enqueue prepends), in front of the initial
buffer; the other fields are untouched. -/
theorem enqueueList_eq (chunks : List (List Nat)) :
    ∀ c : ExternalUnderlyingSourceController,
      enqueueList c chunks = { c with buffer := chunks.reverse.flatten ++ c.buffer } := by
  induction chunks with
  | nil => intro c; simp [enqueueList]
  | cons b bs ih =>
    intro c
    simp only [enqueueList, ExternalUnderlyingSourceController.enqueue_chunk]
    rw [ih]
    simp [List.reverse_cons, List.flatten_append, List.append_assoc]

/-- Draining a buffer that holds the chunks in reverse order, one
write_into_buffer call per chunk length, returns exactly the chunks in their
original (enqueue) order and empties the buffer. -/
theorem drainChunks_aligned (chunks : List (List Nat)) :
    ∀ c : ExternalUnderlyingSourceController,
      c.buffer = chunks.reverse.flatten →
      drainChunks c (chunks.map List.length) = some ({ c with buffer := [] }, chunks) := by
  induction chunks with
  | nil =>
    intro c h
    simp at h
    cases c with
    | mk buffer closed fin =>
      simp at h
      subst h
      simp [drainChunks]
  | cons b bs ih =>
    intro c h
    have hbuf : c.buffer = bs.reverse.flatten ++ b := by
      rw [h]; simp [List.reverse_cons, List.flatten_append]
    have hge : c.buffer.length ≥ b.length := by
      rw [hbuf, List.length_append]; omega
    have hsub : c.buffer.length - b.length = bs.reverse.flatten.length := by
      rw [hbuf, List.length_append]; omega
    have hrest : c.buffer.take (c.buffer.length - b.length) = bs.reverse.flatten := by
      rw [hsub, hbuf, List.take_left]
    have hchunk : c.buffer.drop (c.buffer.length - b.length) = b := by
      rw [hsub, hbuf, List.drop_left]
    have hwrite : ExternalUnderlyingSourceController.write_into_buffer c b.length =
        some ({ c with buffer := bs.reverse.flatten }, b, b.length) := by
      simp only [ExternalUnderlyingSourceController.write_into_buffer]
      rw [if_pos hge, hrest, hchunk]
    have hrec := ih { c with buffer := bs.reverse.flatten } rfl
    simp only [List.map_cons, drainChunks, hwrite, hrec]

/-- Fresh controller with an empty buffer, used by several witnesses. -/
def freshController : ExternalUnderlyingSourceController :=
  ExternalUnderlyingSourceController.new ExternalUnderlyingSource.FetchResponse

/-- The worked-example controller built from Memory([1,2,3,4,5]). -/
def memoryExample : ExternalUnderlyingSourceController :=
  ExternalUnderlyingSourceController.new
    (ExternalUnderlyingSource.Memory [1, 2, 3, 4, 5])

/-- An engine-side stream object in the readable state. -/
def jsReadable : JSStream :=
  { state := JSStreamState.readable, locked := false, disturbed := false }

/-- C1: counterexample.  On the controller built from Memory([1,2,3,4,5]),
write_into_buffer(_, 3) copies out [3,4,5] (the last three bytes), not
[1,2,3], and leaves the buffer [1,2], not [4,5]; the follow-up
write_into_buffer(_, 2) then copies out [1,2].  Byte-level FIFO fails, so the
claim is false at this input. -/
theorem C1_counterexample :
    ExternalUnderlyingSourceController.write_into_buffer memoryExample 3 =
      some ({ memoryExample with buffer := [1, 2] }, [3, 4, 5], 3) ∧
    ([3, 4, 5] : List Nat) ≠ [1, 2, 3] ∧
    ExternalUnderlyingSourceController.write_into_buffer
        { memoryExample with buffer := [1, 2] } 2 =
      some ({ memoryExample with buffer := [] }, [1, 2], 2) :=
  ⟨rfl, by decide, rfl⟩

/-- C1 (amended): chunk-aligned FIFO.  enqueue_chunk prepends and
write_into_buffer drains from the back, so for every sequence
enqueue(b1), ..., enqueue(bn) on a controller with an empty buffer, the
write_into_buffer calls with lengths exactly the sizes of b1, ..., bn in
enqueue order copy out exactly b1, then b2, ..., then bn (so their
concatenation is b1 ++ ... ++ bn) and empty the buffer; for drain lengths
that do not align with chunk boundaries, byte order is not preserved, as the
counterexample shows. -/
theorem C1_fifo_chunk_aligned (chunks : List (List Nat))
    (c : ExternalUnderlyingSourceController) (h : c.buffer = []) :
    drainChunks (enqueueList c chunks) (chunks.map List.length) =
      some ({ c with buffer := [] }, chunks) := by
  have he := enqueueList_eq chunks c
  have hb : (enqueueList c chunks).buffer = chunks.reverse.flatten := by
    rw [he]; simp [h]
  have hd := drainChunks_aligned chunks (enqueueList c chunks) hb
  rw [hd, he]

/-- C1 witness: two chunks [1,2] and [3] enqueued into a fresh controller
drain back as [1,2] then [3]. -/
theorem C1_fifo_chunk_aligned_witness :
    drainChunks (enqueueList freshController [[1, 2], [3]])
        ([[1, 2], [3]].map List.length) =
      some ({ freshController with buffer := [] }, [[1, 2], [3]]) :=
  C1_fifo_chunk_aligned [[1, 2], [3]] freshController rfl

/-- C2: counterexample.  pull(3) on the non-closed controller with buffer
[1,2,3,4,5] signals 3 (the desired size), not 5 (the total buffered
length). -/
theorem C2_counterexample :
    (ExternalUnderlyingSourceController.pull memoryExample jsReadable 3).2.2 = [3] ∧
    ([3] : List Nat) ≠ [5] :=
  ⟨rfl, by decide⟩

/-- C2 (amended): for every pull(requested_size) on a controller whose closed
flag is false and whose buffer is non-empty, the number of bytes signaled is
requested_size (the desired size passed by the consumer machinery), not the
total buffered length; and if the buffer is empty and closed is false, pull
has no side effect. -/
theorem C2_pull_signals_desired (c : ExternalUnderlyingSourceController)
    (js : JSStream) (n : Nat) :
    (c.closed = false → 0 < c.buffer.length →
      ExternalUnderlyingSourceController.pull c js n = (c, js, [n])) ∧
    (c.closed = false → c.buffer.length = 0 →
      ExternalUnderlyingSourceController.pull c js n = (c, js, [])) := by
  constructor
  · intro hc hb
    simp [ExternalUnderlyingSourceController.pull, hc, hb,
      ExternalUnderlyingSourceController.signal_available_bytes]
  · intro hc hb
    simp [ExternalUnderlyingSourceController.pull, hc, hb]

/-- C2 witness: pull(3) on the Memory([1,2,3,4,5]) controller signals 3, and
pull(3) on a fresh empty controller does nothing. -/
theorem C2_pull_signals_desired_witness :
    ExternalUnderlyingSourceController.pull memoryExample jsReadable 3 =
      (memoryExample, jsReadable, [3]) ∧
    ExternalUnderlyingSourceController.pull freshController jsReadable 3 =
      (freshController, jsReadable, []) :=
  ⟨(C2_pull_signals_desired memoryExample jsReadable 3).1 rfl (by decide),
   (C2_pull_signals_desired freshController jsReadable 3).2 rfl rfl⟩

/-- A controller that has been closed by native code. -/
def closedController : ExternalUnderlyingSourceController :=
  { buffer := [4], closed := true, finalizer := none }

/-- C3: counterexample.  enqueue_chunk on a closed controller neither aborts
nor panics: it silently prepends the chunk and signals the new total
availability, the exact behavior the claim says cannot happen. -/
theorem C3_counterexample :
    ExternalUnderlyingSourceController.enqueue_chunk closedController [7] =
      ({ closedController with buffer := [7, 4] }, [2]) ∧
    ([2] : List Nat) ≠ [] :=
  ⟨rfl, by decide⟩

/-- C3 (amended): enqueue_chunk never consults the closed flag.  Enqueueing
after close succeeds silently: the chunk is prepended to the buffer and the
new total buffered length is signaled, exactly as on an open controller;
there is no assertion, panic, or error for this usage-contract violation. -/
theorem C3_enqueue_ignores_closed (c : ExternalUnderlyingSourceController)
    (chunk : List Nat) (_h : c.closed = true) :
    ExternalUnderlyingSourceController.enqueue_chunk c chunk =
      ({ c with buffer := chunk ++ c.buffer }, [(chunk ++ c.buffer).length]) :=
  rfl

/-- C3 witness: enqueueing [7] on a concrete closed controller. -/
theorem C3_enqueue_ignores_closed_witness :
    ExternalUnderlyingSourceController.enqueue_chunk closedController [7] =
      ({ closedController with buffer := [7] ++ closedController.buffer },
        [([7] ++ closedController.buffer).length]) :=
  C3_enqueue_ignores_closed closedController [7] rfl

/-- maybe_close_js_stream never changes the disturbed flag. -/
theorem maybe_close_disturbed (js : JSStream) :
    (ExternalUnderlyingSourceController.maybe_close_js_stream js).disturbed =
      js.disturbed := by
  cases hjs : js.state <;>
    simp [ExternalUnderlyingSourceController.maybe_close_js_stream, hjs]

/-- Every successfully executed native stream operation preserves the
engine-side disturbed flag once it is set. -/
theorem streamStep_disturbed (u v : ReadableStream) (huv : StreamStep u v)
    (hd : u.js_stream.disturbed = true) : v.js_stream.disturbed = true := by
  cases huv with
  | start_ok w h =>
    unfold ReadableStream.start_reading at h
    split at h
    · simp at h
    · simp at h
      subst h
      simpa using hd
  | start_err h => exact hd
  | read w h =>
    unfold ReadableStream.read_a_chunk at h
    split at h
    · simp at h
      subst h
      simp
    · simp at h
  | stop => simpa [ReadableStream.stop_reading] using hd
  | enq w bytes sigs h =>
    unfold ReadableStream.enqueue_native at h
    split at h
    · simp at h
    · simp at h
      obtain ⟨h1, h2⟩ := h
      subst h1
      simpa using hd
  | close_n w h =>
    unfold ReadableStream.close_native at h
    split at h
    · simp at h
    · simp at h
      subst h
      simpa [ExternalUnderlyingSourceController.close, maybe_close_disturbed] using hd
  | error_n =>
    unfold ReadableStream.error_native
    split
    · simpa using hd
    · exact hd

/-- C4: disturbed monotonicity.  If a read has been issued through a native
reader (read_a_chunk succeeded, which requires the reader acquired by
start_reading), then after every sequence of further native operations,
including stop_reading, is_disturbed still returns true: a read marks the
engine-side stream disturbed, no operation clears that flag, and
is_disturbed reports it even after has_reader is reset. -/
theorem C4_disturbed_monotone (s s' t : ReadableStream)
    (hread : ReadableStream.read_a_chunk s = some s')
    (hsteps : Relation.ReflTransGen StreamStep s' t) :
    ReadableStream.is_disturbed t = true := by
  have hs' : s'.js_stream.disturbed = true := by
    unfold ReadableStream.read_a_chunk at hread
    split at hread
    · simp at hread
      subst hread
      simp
    · simp at hread
  have hT : t.js_stream.disturbed = true := by
    induction hsteps with
    | refl => exact hs'
    | tail _ hbc ih => exact streamStep_disturbed _ _ hbc ih
  simp [ReadableStream.is_disturbed, hT]

/-- A stream handle holding a native reader on a readable engine stream. -/
def readerStream : ReadableStream :=
  { has_reader := true
    js_stream := { state := JSStreamState.readable, locked := true, disturbed := false }
    external_underlying_source := none }

/-- readerStream after one read: the engine stream is disturbed. -/
def disturbedStream : ReadableStream :=
  { readerStream with
    js_stream := { readerStream.js_stream with disturbed := true } }

/-- C4 witness: read one chunk, then stop_reading; is_disturbed is still
true. -/
theorem C4_disturbed_monotone_witness :
    ReadableStream.is_disturbed (ReadableStream.stop_reading disturbedStream) = true :=
  C4_disturbed_monotone readerStream disturbedStream
    (ReadableStream.stop_reading disturbedStream) rfl
    (Relation.ReflTransGen.single (StreamStep.stop disturbedStream))

/-- C5: no double lock.  start_reading fails exactly when the stream is
already locked or already disturbed; otherwise it succeeds, acquiring the
reader (has_reader set, engine stream locked); and after any successful
start_reading, a second start_reading without an intervening stop_reading
fails. -/
theorem C5_no_double_lock (s : ReadableStream) :
    ((ReadableStream.is_locked s || ReadableStream.is_disturbed s) = true →
      ReadableStream.start_reading s = Except.error ()) ∧
    ((ReadableStream.is_locked s || ReadableStream.is_disturbed s) = false →
      ReadableStream.start_reading s =
        Except.ok
          { s with
            has_reader := true
            js_stream := { s.js_stream with locked := true } }) ∧
    (∀ s' : ReadableStream, ReadableStream.start_reading s = Except.ok s' →
      ReadableStream.start_reading s' = Except.error ()) := by
  refine ⟨?_, ?_, ?_⟩
  · intro h
    simp [ReadableStream.start_reading, h]
  · intro h
    simp [ReadableStream.start_reading, h]
  · intro s' h
    unfold ReadableStream.start_reading at h
    split at h
    · simp at h
    · simp at h
      subst h
      simp [ReadableStream.start_reading, ReadableStream.is_locked]

/-- A fresh, unlocked, undisturbed stream handle. -/
def freshStream : ReadableStream :=
  { has_reader := false
    js_stream := { state := JSStreamState.readable, locked := false, disturbed := false }
    external_underlying_source := none }

/-- freshStream after a successful start_reading. -/
def freshStreamLocked : ReadableStream :=
  { freshStream with
    has_reader := true
    js_stream := { freshStream.js_stream with locked := true } }

/-- A stream disturbed by script but not locked. -/
def scriptDisturbedStream : ReadableStream :=
  { freshStream with
    js_stream := { freshStream.js_stream with disturbed := true } }

/-- C5 witness: start_reading fails on a disturbed-only stream, succeeds on a
fresh stream, and fails the second time after that success. -/
theorem C5_no_double_lock_witness :
    ReadableStream.start_reading scriptDisturbedStream = Except.error () ∧
    ReadableStream.start_reading freshStream = Except.ok freshStreamLocked ∧
    ReadableStream.start_reading freshStreamLocked = Except.error () :=
  ⟨(C5_no_double_lock scriptDisturbedStream).1 rfl,
   (C5_no_double_lock freshStream).2.1 rfl,
   (C5_no_double_lock freshStream).2.2 freshStreamLocked
     ((C5_no_double_lock freshStream).2.1 rfl)⟩

/-- C6: write_into_buffer exactness.  When the buffer holds at least length
bytes, the call returns bytes_written equal to length, removes exactly the
last length bytes (the buffer shrinks by exactly length and the old buffer is
the new buffer followed by the copied-out bytes), and copies exactly those
removed bytes to the target; when the buffer holds fewer than length bytes
the assertion fails (modelled as none), and by the success case that branch
is unreachable whenever the requested length is bounded by the buffered
amount, i.e. whenever availability was signaled correctly. -/
theorem C6_write_exact (c : ExternalUnderlyingSourceController) (n : Nat) :
    (n ≤ c.buffer.length →
      ∃ c' out,
        ExternalUnderlyingSourceController.write_into_buffer c n =
          some (c', out, n) ∧
        c'.buffer.length + n = c.buffer.length ∧
        c'.buffer ++ out = c.buffer ∧
        out.length = n ∧
        c'.closed = c.closed) ∧
    (c.buffer.length < n →
      ExternalUnderlyingSourceController.write_into_buffer c n = none) := by
  constructor
  · intro h
    have hlen : (c.buffer.drop (c.buffer.length - n)).length = n := by
      rw [List.length_drop]; omega
    refine ⟨{ c with buffer := c.buffer.take (c.buffer.length - n) },
      c.buffer.drop (c.buffer.length - n), ?_, ?_, ?_, hlen, rfl⟩
    · simp only [ExternalUnderlyingSourceController.write_into_buffer]
      rw [if_pos h, hlen]
    · have : (c.buffer.take (c.buffer.length - n)).length = c.buffer.length - n := by
        rw [List.length_take]; omega
      simp only [this]; omega
    · simp [List.take_append_drop]
  · intro h
    simp only [ExternalUnderlyingSourceController.write_into_buffer]
    rw [if_neg (by omega)]

/-- C6 witness: on the Memory([1,2,3,4,5]) controller, a length-3 write
succeeds with the exactness properties, and a length-7 write hits the
assertion. -/
theorem C6_write_exact_witness :
    (∃ c' out,
      ExternalUnderlyingSourceController.write_into_buffer memoryExample 3 =
        some (c', out, 3) ∧
      c'.buffer.length + 3 = memoryExample.buffer.length ∧
      c'.buffer ++ out = memoryExample.buffer ∧
      out.length = 3 ∧
      c'.closed = memoryExample.closed) ∧
    ExternalUnderlyingSourceController.write_into_buffer memoryExample 7 = none :=
  ⟨(C6_write_exact memoryExample 3).1 (by decide),
   (C6_write_exact memoryExample 7).2 (by decide)⟩

/-- The tee request state at the moment a chunk arrives with branch 2 not
canceled and clone-for-branch-2 requested: one read in flight, both branch
controllers active and empty, the shared cancel promise pending. -/
def teeCloneState : TeeReadRequest :=
  { reading := true
    read_again := false
    canceled_1 := false
    canceled_2 := false
    clone_for_branch_2 := true
    branch_1 := DefaultCtrlState.active []
    branch_2 := DefaultCtrlState.active []
    cancel_promise := none
    upstream_canceled := none
    pulls := 0 }

/-- C7: evaluation at the failing input.  When canceled_2 is false,
clone_for_branch_2 is true and the structured clone of the chunk fails with
value 9, the chunk steps error both branch default controllers with that
value, cancel the upstream stream, and return without enqueueing the chunk
to either branch — but the shared cancel promise is left pending (the source
drops the result of ReadableStreamCancel instead of resolving cancelPromise
with it, contradicting its own comment that quotes the WHATWG step). -/
theorem C7_clone_failure_eval :
    TeeReadRequest.chunk_steps teeCloneState 5 (Except.error 9) =
      { teeCloneState with
        branch_1 := DefaultCtrlState.errored 9
        branch_2 := DefaultCtrlState.errored 9
        upstream_canceled := some 9 } ∧
    (TeeReadRequest.chunk_steps teeCloneState 5 (Except.error 9)).cancel_promise =
      none :=
  ⟨rfl, rfl⟩

/-- A stream finalizer with concrete identifiers. -/
def finalizerExample : StreamFinalizer :=
  { stream := 1, task_source := 2, canceller := 3 }

/-- A controller whose one-shot finalizer has been armed. -/
def armedController : ExternalUnderlyingSourceController :=
  ExternalUnderlyingSourceController.set_up_finalize
    (ExternalUnderlyingSourceController.new (ExternalUnderlyingSource.Blob 4))
    finalizerExample

/-- C8: finalize-once.  The first finalize takes the one-shot finalizer out
of the slot (leaving none behind the mutex) and queues the teardown task on
the owning execution context task source recorded in the finalizer; a second
finalize finds the slot empty and panics on the expect (modelled as none),
never silently repeating. -/
theorem C8_finalize_once (c : ExternalUnderlyingSourceController)
    (f : StreamFinalizer) (h : c.finalizer = some f) :
    ExternalUnderlyingSourceController.finalize c =
      some ({ c with finalizer := none },
        { task_source := f.task_source, stream := f.stream,
          canceller := f.canceller }) ∧
    ExternalUnderlyingSourceController.finalize { c with finalizer := none } =
      none := by
  constructor
  · simp [ExternalUnderlyingSourceController.finalize, h, StreamFinalizer.finalize]
  · rfl

/-- C8 witness: finalizing the armed controller once succeeds and queues the
task; finalizing again panics. -/
theorem C8_finalize_once_witness :
    ExternalUnderlyingSourceController.finalize armedController =
      some ({ armedController with finalizer := none },
        { task_source := 2, stream := 1, canceller := 3 }) ∧
    ExternalUnderlyingSourceController.finalize
        { armedController with finalizer := none } =
      none :=
  C8_finalize_once armedController finalizerExample rfl

/-- After maybe_close_js_stream the engine stream is never readable. -/
theorem maybe_close_not_readable (js : JSStream) :
    (ExternalUnderlyingSourceController.maybe_close_js_stream js).state ≠
      JSStreamState.readable := by
  cases hjs : js.state with
  | readable =>
    simp [ExternalUnderlyingSourceController.maybe_close_js_stream, hjs]
  | closed =>
    simp [ExternalUnderlyingSourceController.maybe_close_js_stream, hjs]
  | errored =>
    simp [ExternalUnderlyingSourceController.maybe_close_js_stream, hjs]

/-- maybe_close_js_stream is the identity on a non-readable engine stream. -/
theorem maybe_close_idem (js : JSStream)
    (h : js.state ≠ JSStreamState.readable) :
    ExternalUnderlyingSourceController.maybe_close_js_stream js = js := by
  cases hjs : js.state with
  | readable => exact absurd hjs h
  | closed =>
    simp [ExternalUnderlyingSourceController.maybe_close_js_stream, hjs]
  | errored =>
    simp [ExternalUnderlyingSourceController.maybe_close_js_stream, hjs]

/-- C9: close idempotence.  After any close the closed flag is true and the
consumer-visible stream is no longer readable; a repeated close therefore
raises no error (close is total), leaves closed equal to true, emits no
availability signal, and is a complete no-op: the attempt to close the
consumer-visible stream again does nothing because the stream is not in the
readable state after the first close. -/
theorem C9_close_idempotent (c c₁ : ExternalUnderlyingSourceController)
    (js js₁ : JSStream) (sig : List Nat)
    (h : ExternalUnderlyingSourceController.close c js = (c₁, js₁, sig)) :
    c₁.closed = true ∧
    js₁.state ≠ JSStreamState.readable ∧
    ExternalUnderlyingSourceController.close c₁ js₁ = (c₁, js₁, []) := by
  simp only [ExternalUnderlyingSourceController.close, Prod.mk.injEq] at h
  obtain ⟨h1, h2, h3⟩ := h
  subst h1
  subst h2
  refine ⟨rfl, maybe_close_not_readable js, ?_⟩
  simp only [ExternalUnderlyingSourceController.close]
  rw [maybe_close_idem _ (maybe_close_not_readable js)]

/-- The Memory([1]) controller after its first close. -/
def onceClosedController : ExternalUnderlyingSourceController :=
  { ExternalUnderlyingSourceController.new (ExternalUnderlyingSource.Memory [1]) with
    closed := true }

/-- The readable engine stream after the first close. -/
def onceClosedJS : JSStream :=
  { jsReadable with state := JSStreamState.closed }

/-- C9 witness: after a first concrete close, a second close is a no-op with
no signal. -/
theorem C9_close_idempotent_witness :
    onceClosedController.closed = true ∧
    onceClosedJS.state ≠ JSStreamState.readable ∧
    ExternalUnderlyingSourceController.close onceClosedController onceClosedJS =
      (onceClosedController, onceClosedJS, []) :=
  C9_close_idempotent
    (ExternalUnderlyingSourceController.new (ExternalUnderlyingSource.Memory [1]))
    onceClosedController jsReadable onceClosedJS [] rfl

/-- C10: constructor initial state.  For every source variant the new
controller has closed false and no finalizer armed; only Memory(bytes) seeds
the buffer (with exactly those bytes), while Blob(size) (capacity only),
FetchResponse and FetchRequest start with an empty buffer. -/
theorem C10_initial_state (src : ExternalUnderlyingSource) :
    (ExternalUnderlyingSourceController.new src).closed = false ∧
    (ExternalUnderlyingSourceController.new src).finalizer = none ∧
    (∀ bytes, src = ExternalUnderlyingSource.Memory bytes →
      (ExternalUnderlyingSourceController.new src).buffer = bytes) ∧
    (∀ n, src = ExternalUnderlyingSource.Blob n →
      (ExternalUnderlyingSourceController.new src).buffer = []) ∧
    (src = ExternalUnderlyingSource.FetchResponse →
      (ExternalUnderlyingSourceController.new src).buffer = []) ∧
    (src = ExternalUnderlyingSource.FetchRequest →
      (ExternalUnderlyingSourceController.new src).buffer = []) := by
  refine ⟨rfl, rfl, ?_, ?_, ?_, ?_⟩
  · intro bytes h
    subst h
    rfl
  · intro n h
    subst h
    rfl
  · intro h
    subst h
    rfl
  · intro h
    subst h
    rfl

/-- C10 witness: the four variants at concrete inputs. -/
theorem C10_initial_state_witness :
    (ExternalUnderlyingSourceController.new
      (ExternalUnderlyingSource.Memory [1, 2])).buffer = [1, 2] ∧
    (ExternalUnderlyingSourceController.new
      (ExternalUnderlyingSource.Blob 4)).buffer = [] ∧
    (ExternalUnderlyingSourceController.new
      ExternalUnderlyingSource.FetchResponse).buffer = [] ∧
    (ExternalUnderlyingSourceController.new
      ExternalUnderlyingSource.FetchRequest).buffer = [] ∧
    (ExternalUnderlyingSourceController.new
      (ExternalUnderlyingSource.Memory [1, 2])).closed = false :=
  ⟨(C10_initial_state (ExternalUnderlyingSource.Memory [1, 2])).2.2.1 [1, 2] rfl,
   (C10_initial_state (ExternalUnderlyingSource.Blob 4)).2.2.2.1 4 rfl,
   (C10_initial_state ExternalUnderlyingSource.FetchResponse).2.2.2.2.1 rfl,
   (C10_initial_state ExternalUnderlyingSource.FetchRequest).2.2.2.2.2 rfl,
   (C10_initial_state (ExternalUnderlyingSource.Memory [1, 2])).1⟩
